import Mathlib

/-!
Verification development for the monster behavior and combat simulation
subsystem of the `mh-frontier-wiiu-server` repository
(`monster_ai_system.py`).

The Python source is shallowly embedded: Python `float` values are modelled
as rationals (`ℚ`), Python `int` as `ℤ`, dictionaries returned by the AI
update functions as the inductive `Action`, and the mutable `MonsterAI` /
`MonsterSpawner` objects as records transformed by pure functions.  All
`time.time()` reads inside one call are modelled by a single `now`
parameter, and every `random.*` draw is passed in explicitly (the `Env`
record and extra parameters), so each Python method becomes a deterministic
function of its state, inputs, time and random draws.

`math.sqrt` (used only by `Position.distance_to`) is modelled by `ratSqrt`,
an exact rational square root on perfect squares; every concrete input used
below has a perfect-square squared-distance, so the model agrees with the
source there, and no theorem relies on the value of an inexact square root.
-/

namespace MHF

/-- Python `int(x)` on a float: truncation toward zero. -/
def pyInt (q : ℚ) : ℤ :=
  if 0 ≤ q then ⌊q⌋ else ⌈q⌉

/-- Modelled from the spec: the spec's `round(...)` operation on the damage
formulas (`final_damage = round(amount * multiplier)`), used only to compare
the spec's stated formula with the source's `int(...)` truncation. -/
def specRound (q : ℚ) : ℤ := round q

/-- Exact rational square root on perfect squares; stands in for Python's
`math.sqrt` (all concrete distances used in this file are perfect squares). -/
def ratSqrt (q : ℚ) : ℚ :=
  (Nat.sqrt q.num.toNat : ℚ) / (Nat.sqrt q.den : ℚ)

/-- `MonsterType` enum from the source. -/
inductive MonsterType where
  | GREAT_JAGGI | QURUPECO | BARROTH | RATHIAN | RATHALOS
  | DIABLOS | TIGREX | NARGACUGA | BARIOTH
deriving DecidableEq, Repr

/-- `StatusEffect` enum from the source. -/
inductive StatusEffect where
  | POISON | PARALYSIS | SLEEP | STUN | MOUNT | TRAP
deriving DecidableEq, Repr

/-- `AttackType` enum from the source. -/
inductive AttackType where
  | PHYSICAL | FIRE | ICE | THUNDER | WATER | DRAGON | POISON
deriving DecidableEq, Repr

/-- `MonsterStats` dataclass from the source. -/
structure MonsterStats where
  name : String
  monster_type : MonsterType
  health : ℤ
  max_health : ℤ
  attack : ℤ
  defense : ℤ
  speed : ℚ
  size : String
  elemental_weakness : List AttackType
  elemental_resistance : List AttackType
  status_weakness : List StatusEffect
  status_resistance : List StatusEffect
  rage_threshold : ℚ
  enrage_multiplier : ℚ
deriving DecidableEq, Repr

/-- `Position` dataclass from the source. -/
structure Position where
  x : ℚ
  y : ℚ
  z : ℚ
deriving DecidableEq, Repr

/-- `Position.distance_to` from the source (`math.sqrt` modelled by
`ratSqrt`). -/
def Position.distance_to (p other : Position) : ℚ :=
  ratSqrt ((p.x - other.x)^2 + (p.y - other.y)^2 + (p.z - other.z)^2)

/-- `Position.move_towards` from the source. -/
def Position.move_towards (p target : Position) (speed : ℚ) : Position :=
  let distance := p.distance_to target
  if distance = 0 then p
  else
    let ratio := min (speed / distance) 1
    ⟨p.x + (target.x - p.x) * ratio,
     p.y + (target.y - p.y) * ratio,
     p.z + (target.z - p.z) * ratio⟩

/-- `StatusEffectInstance` dataclass from the source. -/
structure StatusEffectInstance where
  effect : StatusEffect
  duration : ℚ
  intensity : ℚ
  start_time : ℚ
deriving DecidableEq, Repr

/-- One attack-pattern dict from `_generate_attack_patterns` (the optional
`"type"` and `"status"` keys become `Option` fields). -/
structure AttackPattern where
  name : String
  damage : ℤ
  range : ℚ
  cooldown : ℚ
  type : Option AttackType
  status : Option StatusEffect
deriving DecidableEq, Repr

/-- Default used for the out-of-range list lookup in `performAttack`
(never reached from a constructed agent, as the pattern-selection safety
invariant below shows); Python would raise `IndexError` there instead. -/
def dummyPattern : AttackPattern := ⟨"", 0, 0, 0, none, none⟩

/-- `MonsterAI._generate_attack_patterns` from the source: species with a
table get it, all others get the one-element fallback pattern. -/
def generateAttackPatterns : MonsterType → List AttackPattern
  | .GREAT_JAGGI =>
      [⟨"Tail Swipe", 15, 3, 3/2, none, none⟩,
       ⟨"Charge", 25, 5, 2, none, none⟩,
       ⟨"Bite", 20, 2, 1, none, none⟩]
  | .RATHIAN =>
      [⟨"Fire Breath", 30, 4, 3, some .FIRE, none⟩,
       ⟨"Tail Flip", 35, 7/2, 5/2, none, some .POISON⟩,
       ⟨"Charge", 25, 6, 2, none, none⟩]
  | .TIGREX =>
      [⟨"Roar", 10, 8, 4, none, some .STUN⟩,
       ⟨"Claw Swipe", 40, 3, 3/2, none, none⟩,
       ⟨"Rush Attack", 50, 7, 3, none, none⟩]
  | _ => [⟨"Basic Attack", 20, 2, 3/2, none, none⟩]

/-- One player descriptor dict (`{id, name, position, defense}`); the source
reads `player.get('defense', 0)`, modelled as an always-present field. -/
structure Player where
  id : String
  pname : String
  position : Position
  defense : ℤ
deriving DecidableEq, Repr

/-- Per-update random draws of `_idle_behavior` (`random.uniform(3.0, 8.0)`
and the two `random.uniform(-5.0, 5.0)` offsets), passed in explicitly. -/
structure Env where
  retarget_delay : ℚ
  offset_x : ℚ
  offset_z : ℚ
deriving DecidableEq, Repr

/-- Mutable state of a `MonsterAI` object. -/
structure MonsterAI where
  stats : MonsterStats
  position : Position
  target_position : Position
  current_health : ℚ
  is_enraged : Bool
  is_stunned : Bool
  is_sleeping : Bool
  is_trapped : Bool
  is_mounted : Bool
  status_effects : List StatusEffectInstance
  last_attack_time : ℚ
  attack_cooldown : ℚ
  state : String
  target_player : Option String
  rage_timer : ℚ
  last_movement : ℚ
  aggression_level : ℚ
  intelligence : ℚ
  patience : ℚ
  attack_patterns : List AttackPattern
  current_pattern_index : ℕ
deriving DecidableEq, Repr

/-- `MonsterAI.__init__` from the source (`now` models the `time.time()`
read; the three behavior draws `random.uniform(...)` are passed in). -/
def mkMonsterAI (monster_stats : MonsterStats) (initial_position : Position)
    (now aggression intelligence patience : ℚ) : MonsterAI where
  stats := monster_stats
  position := initial_position
  target_position := initial_position
  current_health := (monster_stats.health : ℚ)
  is_enraged := false
  is_stunned := false
  is_sleeping := false
  is_trapped := false
  is_mounted := false
  status_effects := []
  last_attack_time := 0
  attack_cooldown := 2
  state := "idle"
  target_player := none
  rage_timer := 0
  last_movement := now
  aggression_level := aggression
  intelligence := intelligence
  patience := patience
  attack_patterns := generateAttackPatterns monster_stats.monster_type
  current_pattern_index := 0

/-- The per-tick output dicts of the source (`{"action": ..., ...}`),
as a tagged variant; payloads keep the fields the claims talk about. -/
inductive Action where
  | cooldown
  | attack (attack_name : String) (damage : ℤ) (target_player : String)
      (attack_type : AttackType) (status_effect : Option StatusEffect)
  | miss
  | chase (target : String) (speed : ℚ)
  | stunned
  | sleep
  | patrol
  | idle
  | defeated (damage : ℤ)
  | flee (damage : ℤ) (health : ℚ)
  | damaged (damage : ℤ) (health : ℚ)
deriving DecidableEq, Repr

/-- True exactly on the `{"action": "defeated"}` result (the tag
`MonsterSpawner.update_monsters` tests to decide removal). -/
def Action.isDefeated : Action → Bool
  | .defeated _ => true
  | _ => false

/-- Reported `"damage"` field of a `take_damage` / attack result, if any. -/
def Action.damageOf : Action → Option ℤ
  | .defeated d => some d
  | .flee d _ => some d
  | .damaged d _ => some d
  | .attack _ d _ _ _ => some d
  | _ => none

/-- The flag/health fields threaded through the `_update_status_effects`
loop. -/
structure EffState where
  current_health : ℚ
  is_stunned : Bool
  is_sleeping : Bool
  is_trapped : Bool
  is_mounted : Bool
deriving DecidableEq, Repr

/-- Body of the active branch of the `_update_status_effects` loop:
poison drains `intensity * delta_time` health, the four flag-kinds set
their flag; a `STUN` instance touches nothing (the source has no branch
for it). -/
def applyActive (dt : ℚ) (e : StatusEffectInstance) (st : EffState) : EffState :=
  match e.effect with
  | .POISON => { st with current_health := st.current_health - e.intensity * dt }
  | .PARALYSIS => { st with is_stunned := true }
  | .SLEEP => { st with is_sleeping := true }
  | .TRAP => { st with is_trapped := true }
  | .MOUNT => { st with is_mounted := true }
  | .STUN => st

/-- Body of the expired branch of the `_update_status_effects` loop: the
four flag-kinds clear their flag; poison and `STUN` touch nothing. -/
def clearExpired (e : StatusEffectInstance) (st : EffState) : EffState :=
  match e.effect with
  | .PARALYSIS => { st with is_stunned := false }
  | .SLEEP => { st with is_sleeping := false }
  | .TRAP => { st with is_trapped := false }
  | .MOUNT => { st with is_mounted := false }
  | .POISON => st
  | .STUN => st

/-- The `for effect in self.status_effects` loop of
`_update_status_effects`, in list order, returning the final flag/health
state and the surviving (`active_effects`) list. -/
def tickEffects (now dt : ℚ) : List StatusEffectInstance → EffState →
    EffState × List StatusEffectInstance
  | [], st => (st, [])
  | e :: rest, st =>
    if now - e.start_time < e.duration then
      let r := tickEffects now dt rest (applyActive dt e st)
      (r.1, e :: r.2)
    else
      tickEffects now dt rest (clearExpired e st)

/-- `MonsterAI._update_status_effects` from the source (the internal
`time.time()` read is the `now` parameter). -/
def MonsterAI.updateStatusEffects (m : MonsterAI) (now dt : ℚ) : MonsterAI :=
  let r := tickEffects now dt m.status_effects
    ⟨m.current_health, m.is_stunned, m.is_sleeping, m.is_trapped, m.is_mounted⟩
  { m with
    current_health := r.1.current_health
    is_stunned := r.1.is_stunned
    is_sleeping := r.1.is_sleeping
    is_trapped := r.1.is_trapped
    is_mounted := r.1.is_mounted
    status_effects := r.2 }

/-- `MonsterAI._find_nearest_player` from the source: strict-`<` minimum,
first player of a tied distance wins (the first player always beats the
`float('inf')` start). -/
def MonsterAI.findNearestPlayer (m : MonsterAI) (players : List Player) :
    Option Player :=
  (players.foldl (fun acc p =>
    let d := m.position.distance_to p.position
    match acc with
    | none => some (p, d)
    | some (q, dm) => if d < dm then some (p, d) else some (q, dm)) none).map (·.1)

/-- `MonsterAI._become_enraged` from the source.  Note the last line writes
`self.stats.attack` — a field of the (in Python, shared-by-reference)
`MonsterStats` template object. -/
def MonsterAI.becomeEnraged (m : MonsterAI) (now : ℚ) : MonsterAI :=
  { m with
    is_enraged := true
    rage_timer := now
    attack_cooldown := m.attack_cooldown * (7/10)
    stats := { m.stats with
      attack := pyInt ((m.stats.attack : ℚ) * m.stats.enrage_multiplier) } }

/-- `MonsterAI._perform_attack` from the source.  The out-of-range list
access Python would raise on is modelled by `List.getD` with
`dummyPattern`; `c10_patterns_total` shows it is never reached from a
constructed agent. -/
def MonsterAI.performAttack (m : MonsterAI) (player : Player) (now : ℚ) :
    MonsterAI × Action :=
  if now - m.last_attack_time < m.attack_cooldown then (m, .cooldown)
  else
    let pat := m.attack_patterns.getD m.current_pattern_index dummyPattern
    let m1 := { m with
      current_pattern_index := (m.current_pattern_index + 1) % m.attack_patterns.length }
    let base : ℤ :=
      if m1.is_enraged then pyInt ((pat.damage : ℚ) * m1.stats.enrage_multiplier)
      else pat.damage
    if m1.position.distance_to player.position ≤ pat.range then
      let m2 := { m1 with last_attack_time := now }
      let final_damage := max 1 (base - player.defense)
      (m2, .attack pat.name final_damage player.id (pat.type.getD .PHYSICAL) pat.status)
    else (m1, .miss)

/-- `MonsterAI._chase_player` from the source. -/
def MonsterAI.chasePlayer (m : MonsterAI) (player : Player) (dt : ℚ) :
    MonsterAI × Action :=
  if m.is_trapped = true ∨ m.is_stunned = true ∨ m.is_sleeping = true then
    (m, .stunned)
  else
    let movement_speed :=
      if m.is_enraged then m.stats.speed * dt * (13/10) else m.stats.speed * dt
    ({ m with position := m.position.move_towards player.position movement_speed },
     .chase player.id movement_speed)

/-- `MonsterAI._idle_behavior` from the source (`time.time()` is `now`;
the `random.uniform` draws come from `env`). -/
def MonsterAI.idleBehavior (m : MonsterAI) (dt now : ℚ) (env : Env) :
    MonsterAI × Action :=
  if m.is_sleeping = true then (m, .sleep)
  else
    let m1 :=
      if now - m.last_movement > env.retarget_delay then
        { m with
          target_position :=
            ⟨m.position.x + env.offset_x, m.position.y, m.position.z + env.offset_z⟩
          last_movement := now }
      else m
    if m1.position.distance_to m1.target_position > 1/2 then
      let movement_speed := m1.stats.speed * (3/10) * dt
      ({ m1 with position := m1.position.move_towards m1.target_position movement_speed },
       .patrol)
    else (m1, .idle)

/-- Rage check from the top of `MonsterAI.update` (Python would raise
`ZeroDivisionError` for `max_health = 0`; the catalog never has 0). -/
def MonsterAI.ragePhase (m : MonsterAI) (now : ℚ) : MonsterAI :=
  if m.current_health / (m.stats.max_health : ℚ) ≤ m.stats.rage_threshold ∧
      m.is_enraged = false then
    m.becomeEnraged now
  else m

/-- `MonsterAI.update` from the source: status-effect tick, rage check,
nearest-player search, then the distance-gated attack/chase/idle dispatch. -/
def MonsterAI.update (m : MonsterAI) (dt : ℚ) (players : List Player)
    (now : ℚ) (env : Env) : MonsterAI × Action :=
  let m2 := (m.updateStatusEffects now dt).ragePhase now
  match m2.findNearestPlayer players with
  | none => m2.idleBehavior dt now env
  | some p =>
    let m3 := { m2 with target_player := some p.id }
    if m3.position.distance_to p.position ≤ (2 : ℚ) ∧
        m3.is_stunned = false ∧ m3.is_sleeping = false then
      m3.performAttack p now
    else if m3.position.distance_to p.position ≤ (15 : ℚ) ∧
        m3.is_stunned = false ∧ m3.is_sleeping = false then
      m3.chasePlayer p dt
    else
      m3.idleBehavior dt now env

/-- Elemental multiplier of `MonsterAI.take_damage`: weakness 1.5, else
resistance 0.7, else 1.0. -/
def elementMultiplier (stats : MonsterStats) (attack_type : AttackType) : ℚ :=
  if attack_type ∈ stats.elemental_weakness then 3/2
  else if attack_type ∈ stats.elemental_resistance then 7/10
  else 1

/-- `MonsterAI.take_damage` from the source (`now` models the
`time.time()` read when a status instance is appended; `fleeRoll` models
the `random.random()` flee draw). -/
def MonsterAI.takeDamage (m : MonsterAI) (damage : ℤ) (attack_type : AttackType)
    (status_effect : Option StatusEffect) (status_duration : ℚ)
    (now fleeRoll : ℚ) : MonsterAI × Action :=
  let dur :=
    match status_effect with
    | some s => if s ∈ m.stats.status_resistance then status_duration * (1/2)
                else status_duration
    | none => status_duration
  let final_damage := pyInt ((damage : ℚ) * elementMultiplier m.stats attack_type)
  let m1 := { m with current_health := max 0 (m.current_health - (final_damage : ℚ)) }
  let m2 :=
    match status_effect with
    | some s =>
      if 0 < dur then
        { m1 with status_effects := m1.status_effects ++ [⟨s, dur, 1, now⟩] }
      else m1
    | none => m1
  if m2.current_health ≤ (0 : ℚ) then (m2, .defeated final_damage)
  else if m2.current_health < (m2.stats.max_health : ℚ) * (1/5) ∧ fleeRoll < 3/10 then
    ({ m2 with state := "fleeing" }, .flee final_damage m2.current_health)
  else (m2, .damaged final_damage m2.current_health)

/-- The `"great_jaggi"` entry of `_create_monster_templates`. -/
def greatJaggiTemplate : MonsterStats where
  name := "Great Jaggi"
  monster_type := .GREAT_JAGGI
  health := 800
  max_health := 800
  attack := 45
  defense := 20
  speed := 3
  size := "medium"
  elemental_weakness := [.FIRE]
  elemental_resistance := [.WATER]
  status_weakness := [.PARALYSIS]
  status_resistance := [.POISON]
  rage_threshold := 3/10
  enrage_multiplier := 3/2

/-- The `"rathian"` entry of `_create_monster_templates`. -/
def rathianTemplate : MonsterStats where
  name := "Rathian"
  monster_type := .RATHIAN
  health := 2000
  max_health := 2000
  attack := 80
  defense := 35
  speed := 4
  size := "large"
  elemental_weakness := [.THUNDER]
  elemental_resistance := [.FIRE]
  status_weakness := [.STUN]
  status_resistance := [.POISON]
  rage_threshold := 2/5
  enrage_multiplier := 9/5

/-- The `"tigrex"` entry of `_create_monster_templates`. -/
def tigrexTemplate : MonsterStats where
  name := "Tigrex"
  monster_type := .TIGREX
  health := 3000
  max_health := 3000
  attack := 120
  defense := 50
  speed := 5
  size := "large"
  elemental_weakness := [.THUNDER]
  elemental_resistance := [.FIRE, .ICE]
  status_weakness := [.STUN]
  status_resistance := [.PARALYSIS]
  rage_threshold := 1/2
  enrage_multiplier := 2

/-- `MonsterSpawner._create_monster_templates` from the source, as an
association list in dict-literal order. -/
def createMonsterTemplates : List (String × MonsterStats) :=
  [("great_jaggi", greatJaggiTemplate),
   ("rathian", rathianTemplate),
   ("tigrex", tigrexTemplate)]

/-- Mutable state of a `MonsterSpawner` object; `active_monsters` is the
Python dict modelled as an association list in insertion order. -/
structure Spawner where
  monster_templates : List (String × MonsterStats)
  active_monsters : List (String × MonsterAI)
  spawn_points : List Position
  max_monsters : ℕ
  spawn_timer : ℚ
  spawn_interval : ℚ

/-- `MonsterSpawner.__init__` from the source. -/
def mkSpawner : Spawner where
  monster_templates := createMonsterTemplates
  active_monsters := []
  spawn_points := []
  max_monsters := 10
  spawn_timer := 0
  spawn_interval := 30

/-- Python dict assignment `d[k] = v` on the association list: replace an
existing binding of `k` in place, else append. -/
def insertA : List (String × MonsterAI) → String → MonsterAI →
    List (String × MonsterAI)
  | [], k, v => [(k, v)]
  | (k', v') :: rest, k, v =>
    if k' = k then (k, v) :: rest else (k', v') :: insertA rest k v

/-- `MonsterSpawner.spawn_monster` from the source: no-op (`None`) when the
population is at the cap or the species is unknown; otherwise builds the id
from the current time and a random tag and inserts a fresh agent. -/
def Spawner.spawnMonster (s : Spawner) (monster_type : String) (position : Position)
    (now : ℚ) (ridTag : ℤ) (aggression intelligence patience : ℚ) :
    Spawner × Option String :=
  if s.max_monsters ≤ s.active_monsters.length then (s, none)
  else
    match s.monster_templates.lookup monster_type with
    | none => (s, none)
    | some monster_stats =>
      let monster_id :=
        monster_type ++ "_" ++ toString (pyInt now) ++ "_" ++ toString ridTag
      ({ s with active_monsters := (insertA s.active_monsters monster_id
          (mkMonsterAI monster_stats position now aggression intelligence patience)) },
       some monster_id)

/-- `MonsterSpawner._spawn_random_monster` from the source: the two
`random.choice` draws are modelled by indices taken modulo the list
lengths; an empty spawn-point list is a no-op (the guard in the source). -/
def Spawner.spawnRandomMonster (s : Spawner) (pointIdx typeIdx : ℕ)
    (now : ℚ) (ridTag : ℤ) (aggression intelligence patience : ℚ) : Spawner :=
  match s.spawn_points with
  | [] => s
  | _ =>
    let spawn_point := s.spawn_points.getD (pointIdx % s.spawn_points.length) ⟨0, 0, 0⟩
    let types := s.monster_templates.map (·.1)
    let monster_type := types.getD (typeIdx % types.length) ""
    (s.spawnMonster monster_type spawn_point now ridTag aggression intelligence patience).1

/-- `MonsterSpawner.update_monsters` from the source: sweep every live
agent's `update`, collect the tagged results, delete the agents whose
result was `"defeated"`, then run the spawn cadence (the timer is reset
only inside the cadence branch, as in the source).  The model is total, so
the source's per-agent `try/except` removal path never fires. -/
def Spawner.updateMonsters (s : Spawner) (dt : ℚ) (players : List Player)
    (now : ℚ) (env : Env) (pointIdx typeIdx : ℕ) (ridTag : ℤ)
    (aggression intelligence patience : ℚ) :
    Spawner × List (String × Action) :=
  let step := s.active_monsters.map (fun kv => (kv.1, kv.2.update dt players now env))
  let updates := step.map (fun x => (x.1, x.2.2))
  let survivors := (step.filter (fun x => !x.2.2.isDefeated)).map (fun x => (x.1, x.2.1))
  let timer := s.spawn_timer + dt
  let s1 := { s with active_monsters := survivors, spawn_timer := timer }
  let s2 :=
    if s.spawn_interval ≤ timer ∧ survivors.length < s.max_monsters then
      let s1' := s1.spawnRandomMonster pointIdx typeIdx now ridTag
        aggression intelligence patience
      { s1' with spawn_timer := 0 }
    else s1
  (s2, updates)

/-- Last instance of kind `k` in an effect list (in list order), if any:
the instance whose active/expired status decides the corresponding flag
after a `_update_status_effects` sweep. -/
def lastOfKind (k : StatusEffect) : List StatusEffectInstance → Option StatusEffectInstance
  | [] => none
  | e :: rest =>
    match lastOfKind k rest with
    | some x => some x
    | none => if e.effect = k then some e else none

/-- Replace every pattern's (never read) `cooldown` field, keeping all other
fields; used to state that the per-pattern cooldown cannot affect
`_perform_attack`. -/
def mapPatternCooldowns (g : AttackPattern → ℚ) (m : MonsterAI) : MonsterAI :=
  { m with attack_patterns := m.attack_patterns.map (fun pat => { pat with cooldown := g pat }) }

/-- Safety invariant for pattern selection: a non-empty pattern list and an
in-range index, so `attack_patterns[current_pattern_index]` cannot raise. -/
def patternsOk (m : MonsterAI) : Prop :=
  0 < m.attack_patterns.length ∧ m.current_pattern_index < m.attack_patterns.length

/-- A freshly spawned Great Jaggi agent at the origin (time 0; the three
behavior draws fixed at 1). -/
def jag0 : MonsterAI := mkMonsterAI greatJaggiTemplate ⟨0, 0, 0⟩ 0 1 1 1

/-- Idle-behavior draws with a retarget delay (6s) longer than the elapsed
times used below, so idle ticks do not retarget. -/
def env6 : Env := ⟨6, 0, 0⟩

/-- Idle-behavior draws with retarget delay 3s and a +2 x-offset, so an idle
tick at elapsed time 5 retargets 2 units away and starts patrolling. -/
def env32 : Env := ⟨3, 2, 0⟩

/-- A player adjacent to the origin (distance 1) with defense 15. -/
def hunter1 : Player := ⟨"p1", "Hunter", ⟨1, 0, 0⟩, 15⟩

/-- A player adjacent to the origin (distance 1) with defense 0. -/
def hunter0 : Player := ⟨"p0", "Hunter0", ⟨1, 0, 0⟩, 0⟩

/-- A player at distance 4 from the origin with defense 0. -/
def hunter4 : Player := ⟨"p4", "Hunter4", ⟨4, 0, 0⟩, 0⟩

/-- The Great Jaggi agent after `take_damage(900)`: health exactly 0. -/
def c1Dead : MonsterAI := (jag0.takeDamage 900 .PHYSICAL none 0 0 1).1

/-- A spawner whose population is the single defeated (health 0) agent. -/
def c1Spawner : Spawner := { mkSpawner with active_monsters := [("m1", c1Dead)] }

/-- The Great Jaggi agent after `take_damage(799, POISON, duration 10)`:
health 1 with an active poison instance (duration halved to 5 by the
species' poison resistance). -/
def c2Poisoned : MonsterAI := (jag0.takeDamage 799 .PHYSICAL (some .POISON) 10 0 1).1

/-- The Great Jaggi agent right after its enrage transition. -/
def c5Enraged : MonsterAI := jag0.becomeEnraged 0

/-- The enraged agent after one missed attack attempt (the miss still
advanced the round-robin index to the `Charge` pattern). -/
def c5Advanced : MonsterAI := (c5Enraged.performAttack hunter4 10).1

/-- The Great Jaggi agent carrying one paralysis instance
(applied at time 0, duration 10). -/
def c6Paralyzed : MonsterAI := (jag0.takeDamage 0 .PHYSICAL (some .PARALYSIS) 10 0 1).1

/-- The Great Jaggi agent carrying two stacked paralysis instances:
one applied at time 0 with duration 10, one applied at time 1 with
duration 2. -/
def c7Stacked : MonsterAI :=
  (c6Paralyzed.takeDamage 0 .PHYSICAL (some .PARALYSIS) 2 1 1).1

/-- The Great Jaggi agent with its sleep flag set (as after a sleep-status
tick). -/
def c6Sleeper : MonsterAI := { jag0 with is_sleeping := true }

lemma ratSqrt_zero : ratSqrt 0 = 0 := by
  simp [ratSqrt]

lemma ratSqrt_one : ratSqrt 1 = 1 := by
  norm_num [ratSqrt]

lemma ratSqrt_four : ratSqrt 4 = 2 := by
  have h4 : ((4:ℚ).num.toNat) = 4 := rfl
  have hd : ((4:ℚ).den) = 1 := rfl
  rw [ratSqrt, h4, hd]
  have h : (4:ℕ) = 2 * 2 := by norm_num
  rw [h, Nat.sqrt_eq]
  norm_num

lemma ratSqrt_sixteen : ratSqrt 16 = 4 := by
  have h16 : ((16:ℚ).num.toNat) = 16 := rfl
  have hd : ((16:ℚ).den) = 1 := rfl
  rw [ratSqrt, h16, hd]
  have h : (16:ℕ) = 4 * 4 := by norm_num
  rw [h, Nat.sqrt_eq]
  norm_num

lemma elementMultiplier_nonneg (stats : MonsterStats) (a : AttackType) :
    0 ≤ elementMultiplier stats a := by
  unfold elementMultiplier
  split_ifs <;> norm_num

lemma pyInt_nonneg (q : ℚ) (h : 0 ≤ q) : 0 ≤ pyInt q := by
  unfold pyInt
  rw [if_pos h]
  exact Int.floor_nonneg.mpr h

lemma takeDamage_health (m : MonsterAI) (damage : ℤ) (attack_type : AttackType)
    (st : Option StatusEffect) (dur now fleeRoll : ℚ) :
    (m.takeDamage damage attack_type st dur now fleeRoll).1.current_health =
      max 0 (m.current_health -
        (pyInt ((damage : ℚ) * elementMultiplier m.stats attack_type) : ℚ)) := by
  simp only [MonsterAI.takeDamage]
  cases st <;> dsimp only <;> split_ifs <;> rfl

lemma takeDamage_stats (m : MonsterAI) (damage : ℤ) (attack_type : AttackType)
    (st : Option StatusEffect) (dur now fleeRoll : ℚ) :
    (m.takeDamage damage attack_type st dur now fleeRoll).1.stats = m.stats := by
  simp only [MonsterAI.takeDamage]
  cases st <;> dsimp only <;> split_ifs <;> rfl

lemma performAttack_cooldown_eq (m : MonsterAI) (p : Player) (now : ℚ)
    (h : now - m.last_attack_time < m.attack_cooldown) :
    m.performAttack p now = (m, .cooldown) := by
  unfold MonsterAI.performAttack
  rw [if_pos h]

lemma performAttack_hit_eq (m : MonsterAI) (p : Player) (now : ℚ)
    (h1 : ¬(now - m.last_attack_time < m.attack_cooldown))
    (h2 : m.position.distance_to p.position ≤
      (m.attack_patterns.getD m.current_pattern_index dummyPattern).range) :
    m.performAttack p now =
      ({ m with
          current_pattern_index := (m.current_pattern_index + 1) % m.attack_patterns.length,
          last_attack_time := now },
        .attack (m.attack_patterns.getD m.current_pattern_index dummyPattern).name
          (max 1 ((if m.is_enraged then
              pyInt (((m.attack_patterns.getD m.current_pattern_index dummyPattern).damage : ℚ)
                * m.stats.enrage_multiplier)
            else (m.attack_patterns.getD m.current_pattern_index dummyPattern).damage)
            - p.defense))
          p.id ((m.attack_patterns.getD m.current_pattern_index dummyPattern).type.getD .PHYSICAL)
          (m.attack_patterns.getD m.current_pattern_index dummyPattern).status) := by
  unfold MonsterAI.performAttack
  rw [if_neg h1]
  show (if _ ≤ _ then _ else _) = _
  rw [if_pos h2]

lemma performAttack_miss_eq (m : MonsterAI) (p : Player) (now : ℚ)
    (h1 : ¬(now - m.last_attack_time < m.attack_cooldown))
    (h2 : ¬(m.position.distance_to p.position ≤
      (m.attack_patterns.getD m.current_pattern_index dummyPattern).range)) :
    m.performAttack p now =
      ({ m with
          current_pattern_index := (m.current_pattern_index + 1) % m.attack_patterns.length },
        .miss) := by
  unfold MonsterAI.performAttack
  rw [if_neg h1]
  show (if _ ≤ _ then _ else _) = _
  rw [if_neg h2]

lemma getD_map_cooldown (g : AttackPattern → ℚ) :
    ∀ (l : List AttackPattern) (i : ℕ),
      (l.map (fun pat => { pat with cooldown := g pat })).getD i dummyPattern =
        { l.getD i dummyPattern with
          cooldown := if i < l.length then g (l.getD i dummyPattern) else 0 } := by
  intro l
  induction l with
  | nil => intro i; simp [List.getD, dummyPattern]
  | cons a t ih =>
    intro i
    cases i with
    | zero => simp [List.getD]
    | succ n =>
      have h := ih n
      simp only [List.map_cons, List.getD_cons_succ, h, List.length_cons]
      simp [Nat.succ_lt_succ_iff]

lemma ragePhase_is_sleeping (m : MonsterAI) (now : ℚ) :
    (m.ragePhase now).is_sleeping = m.is_sleeping := by
  unfold MonsterAI.ragePhase MonsterAI.becomeEnraged
  split_ifs <;> rfl

lemma ragePhase_is_stunned (m : MonsterAI) (now : ℚ) :
    (m.ragePhase now).is_stunned = m.is_stunned := by
  unfold MonsterAI.ragePhase MonsterAI.becomeEnraged
  split_ifs <;> rfl

lemma ragePhase_position (m : MonsterAI) (now : ℚ) :
    (m.ragePhase now).position = m.position := by
  unfold MonsterAI.ragePhase MonsterAI.becomeEnraged
  split_ifs <;> rfl

lemma updateStatusEffects_position (m : MonsterAI) (now dt : ℚ) :
    (m.updateStatusEffects now dt).position = m.position := rfl

lemma idleBehavior_sleeping (m : MonsterAI) (dt now : ℚ) (env : Env)
    (h : m.is_sleeping = true) : m.idleBehavior dt now env = (m, .sleep) := by
  unfold MonsterAI.idleBehavior
  rw [if_pos h]

lemma idleBehavior_cases (m : MonsterAI) (dt now : ℚ) (env : Env) :
    (m.idleBehavior dt now env).2 = .sleep ∨ (m.idleBehavior dt now env).2 = .patrol ∨
      (m.idleBehavior dt now env).2 = .idle := by
  unfold MonsterAI.idleBehavior
  split_ifs
  all_goals try rw [apply_ite Prod.snd]
  all_goals try split_ifs
  all_goals simp

lemma attackGuard_neg_of_sleeping (d thr : ℚ) (m3 : MonsterAI) (h : m3.is_sleeping = true) :
    ¬(d ≤ thr ∧ m3.is_stunned = false ∧ m3.is_sleeping = false) := by
  intro hc
  rw [h] at hc
  simp at hc

lemma attackGuard_neg_of_stunned (d thr : ℚ) (m3 : MonsterAI) (h : m3.is_stunned = true) :
    ¬(d ≤ thr ∧ m3.is_stunned = false ∧ m3.is_sleeping = false) := by
  intro hc
  rw [h] at hc
  simp at hc

lemma tickEffects_flag (now dt : ℚ) (k : StatusEffect) (proj : EffState → Bool)
    (happly : ∀ e st, proj (applyActive dt e st) = if e.effect = k then true else proj st)
    (hclear : ∀ e st, proj (clearExpired e st) = if e.effect = k then false else proj st) :
    ∀ (es : List StatusEffectInstance) (st : EffState),
      proj (tickEffects now dt es st).1 =
        (lastOfKind k es).elim (proj st) (fun e => decide (now - e.start_time < e.duration)) := by
  intro es
  induction es with
  | nil => intro st; rfl
  | cons e rest ih =>
    intro st
    by_cases hact : now - e.start_time < e.duration
    · rw [tickEffects, if_pos hact]
      dsimp only
      rw [ih (applyActive dt e st), happly]
      cases hl : lastOfKind k rest with
      | some x => simp [lastOfKind, hl]
      | none =>
        simp only [lastOfKind, hl]
        by_cases hek : e.effect = k
        · simp [hek, hact]
        · simp [hek]
    · rw [tickEffects, if_neg hact]
      rw [ih (clearExpired e st), hclear]
      cases hl : lastOfKind k rest with
      | some x => simp [lastOfKind, hl]
      | none =>
        simp only [lastOfKind, hl]
        by_cases hek : e.effect = k
        · simp [hek, hact]
        · simp [hek]

lemma tickEffects_survivors (now dt : ℚ) :
    ∀ (es : List StatusEffectInstance) (st : EffState),
      (tickEffects now dt es st).2 =
        es.filter (fun e => decide (now - e.start_time < e.duration)) := by
  intro es
  induction es with
  | nil => intro st; rfl
  | cons e rest ih =>
    intro st
    by_cases hact : now - e.start_time < e.duration
    · rw [tickEffects, if_pos hact]
      simp [List.filter, hact, ih]
    · rw [tickEffects, if_neg hact]
      simp [List.filter, hact, ih]

lemma generateAttackPatterns_ne_nil (t : MonsterType) :
    0 < (generateAttackPatterns t).length := by
  cases t <;> simp [generateAttackPatterns]

lemma insertA_length_le : ∀ (l : List (String × MonsterAI)) (k : String) (v : MonsterAI),
    (insertA l k v).length ≤ l.length + 1 := by
  intro l
  induction l with
  | nil => intro k v; simp [insertA]
  | cons a t ih =>
    intro k v
    simp only [insertA]
    split_ifs
    · simp
    · simpa [Nat.succ_le_succ_iff] using ih k v

lemma spawnMonster_cap (s : Spawner) (mtype : String) (pos : Position) (now : ℚ)
    (rid : ℤ) (a b c : ℚ) (h : s.active_monsters.length ≤ s.max_monsters) :
    (s.spawnMonster mtype pos now rid a b c).1.active_monsters.length ≤ s.max_monsters := by
  unfold Spawner.spawnMonster
  split_ifs with hcap
  · exact h
  · cases hl : s.monster_templates.lookup mtype with
    | none => simpa [hl] using h
    | some stats =>
      simp only [hl]
      have h1 := insertA_length_le s.active_monsters
        (mtype ++ "_" ++ toString (pyInt now) ++ "_" ++ toString rid)
        (mkMonsterAI stats pos now a b c)
      have h2 : s.active_monsters.length < s.max_monsters := Nat.lt_of_not_le hcap
      exact le_trans h1 (Nat.succ_le_of_lt h2)

lemma spawnRandomMonster_cap (s : Spawner) (pointIdx typeIdx : ℕ) (now : ℚ) (rid : ℤ)
    (a b c : ℚ) (h : s.active_monsters.length ≤ s.max_monsters) :
    (s.spawnRandomMonster pointIdx typeIdx now rid a b c).active_monsters.length ≤
      s.max_monsters := by
  unfold Spawner.spawnRandomMonster
  cases hsp : s.spawn_points with
  | nil => exact h
  | cons q qs =>
    exact spawnMonster_cap s _ _ now rid a b c h

lemma c1Dead_eq : c1Dead = { jag0 with current_health := 0 } := by
  simp only [c1Dead, jag0, MonsterAI.takeDamage, elementMultiplier, pyInt, mkMonsterAI,
    greatJaggiTemplate, generateAttackPatterns, List.mem_cons, List.mem_singleton,
    List.not_mem_nil, or_false, reduceCtorEq, if_false, if_true]
  norm_num

lemma c1Dead_update_idle : (c1Dead.update 1 [] 5 env6).2 = .idle := by
  rw [c1Dead_eq]
  simp only [jag0, mkMonsterAI, greatJaggiTemplate, generateAttackPatterns,
    MonsterAI.update, MonsterAI.updateStatusEffects, tickEffects,
    MonsterAI.ragePhase, MonsterAI.becomeEnraged, MonsterAI.findNearestPlayer,
    MonsterAI.idleBehavior, Position.distance_to, pyInt,
    List.foldl_nil, Option.map_none', env6]
  norm_num [ratSqrt_zero]

lemma c2Poisoned_eq : c2Poisoned =
    { jag0 with current_health := 1, status_effects := [⟨.POISON, 5, 1, 0⟩] } := by
  simp only [c2Poisoned, jag0, MonsterAI.takeDamage, elementMultiplier, pyInt, mkMonsterAI,
    greatJaggiTemplate, generateAttackPatterns, List.mem_cons, List.mem_singleton,
    List.not_mem_nil, or_false, reduceCtorEq, if_false, if_true]
  norm_num

lemma c5Enraged_eq : c5Enraged =
    { jag0 with
      is_enraged := true
      attack_cooldown := 7/5
      stats := { greatJaggiTemplate with attack := 67 } } := by
  simp only [c5Enraged, jag0, MonsterAI.becomeEnraged, mkMonsterAI, greatJaggiTemplate, pyInt]
  norm_num

lemma c5Advanced_eq : c5Advanced =
    { jag0 with
      is_enraged := true
      attack_cooldown := 7/5
      stats := { greatJaggiTemplate with attack := 67 }
      current_pattern_index := 1 } := by
  rw [c5Advanced, c5Enraged_eq]
  simp only [jag0, MonsterAI.performAttack, mkMonsterAI, greatJaggiTemplate, hunter4,
    generateAttackPatterns, Position.distance_to, List.getD, pyInt]
  norm_num [ratSqrt_sixteen]

lemma c6Paralyzed_eq : c6Paralyzed =
    { jag0 with status_effects := [⟨.PARALYSIS, 10, 1, 0⟩] } := by
  simp only [c6Paralyzed, jag0, MonsterAI.takeDamage, elementMultiplier, pyInt, mkMonsterAI,
    greatJaggiTemplate, generateAttackPatterns, List.mem_cons, List.mem_singleton,
    List.not_mem_nil, or_false, reduceCtorEq, if_false, if_true]
  norm_num

lemma c7Stacked_eq : c7Stacked =
    { jag0 with status_effects := [⟨.PARALYSIS, 10, 1, 0⟩, ⟨.PARALYSIS, 2, 1, 1⟩] } := by
  rw [c7Stacked, c6Paralyzed_eq]
  simp only [jag0, MonsterAI.takeDamage, elementMultiplier, pyInt, mkMonsterAI,
    greatJaggiTemplate, generateAttackPatterns, List.mem_cons, List.mem_singleton,
    List.not_mem_nil, or_false, reduceCtorEq, if_false, if_true]
  norm_num

/-- Claim C1 (code bug): the source contradicts its own defeated-removal
sweep.  At a concrete input — a Great Jaggi reduced to exactly 0 health by
`take_damage(900)` — (i) the killing `take_damage` reports `defeated`,
(ii) a second `take_damage(10)` on the already-dead agent reports
`defeated` again (not exactly once), (iii) a per-tick `update` on the dead
agent returns `idle`, never `defeated`, and (iv) consequently the
`update_monsters` sweep, whose removal test looks for an update action
`"defeated"` that `update` can never produce, leaves the dead agent in the
population. -/
theorem c1_defeated_lifecycle_bug :
    c1Dead.current_health = 0
    ∧ (jag0.takeDamage 900 .PHYSICAL none 0 0 1).2 = .defeated 900
    ∧ (c1Dead.takeDamage 10 .PHYSICAL none 0 0 1).2 = .defeated 10
    ∧ (c1Dead.update 1 [] 5 env6).2 = .idle
    ∧ (c1Spawner.updateMonsters 1 [] 5 env6 0 0 0 1 1 1).1.active_monsters.length = 1 := by
  refine ⟨by rw [c1Dead_eq], ?_, ?_, c1Dead_update_idle, ?_⟩
  · simp only [jag0, MonsterAI.takeDamage, elementMultiplier, pyInt, mkMonsterAI,
      greatJaggiTemplate, generateAttackPatterns, List.mem_cons, List.mem_singleton,
      List.not_mem_nil, or_false, reduceCtorEq, if_false, if_true]
    norm_num
  · rw [c1Dead_eq]
    simp only [jag0, MonsterAI.takeDamage, elementMultiplier, pyInt, mkMonsterAI,
      greatJaggiTemplate, generateAttackPatterns, List.mem_cons, List.mem_singleton,
      List.not_mem_nil, or_false, reduceCtorEq, if_false, if_true]
    norm_num
  · simp only [c1Spawner, Spawner.updateMonsters, mkSpawner, List.map_cons, List.map_nil,
      List.filter, c1Dead_update_idle, Action.isDefeated]
    norm_num

/-- Claim C2 counterexample: a reachable poisoned agent (health 1, one
active poison instance of intensity 1) whose next update tick with
`dt = 2` drains health to `-1`, violating `0 ≤ health`. -/
theorem c2_poison_underflow_cex :
    (c2Poisoned.update 2 [] 1 env6).1.current_health = -1 ∧ ((-1 : ℚ) < 0) := by
  refine ⟨?_, by norm_num⟩
  rw [c2Poisoned_eq]
  simp only [jag0, mkMonsterAI, greatJaggiTemplate, generateAttackPatterns,
    MonsterAI.update, MonsterAI.updateStatusEffects, tickEffects, applyActive,
    MonsterAI.ragePhase, MonsterAI.becomeEnraged, MonsterAI.findNearestPlayer,
    MonsterAI.idleBehavior, Position.distance_to, pyInt,
    List.foldl_nil, Option.map_none', env6]
  norm_num [ratSqrt_zero]

/-- Claim C2 (amended): `take_damage` with a nonnegative amount preserves
`0 ≤ health ≤ max_health` (the clamp `max(0, ...)` only ever lowers health
toward 0); the poison tick inside `update`, by contrast, is unclamped and
can drive health below 0 (see the counterexample). -/
theorem c2_health_bounds (m : MonsterAI) (damage : ℤ) (attack_type : AttackType)
    (st : Option StatusEffect) (dur now fleeRoll : ℚ)
    (h0 : 0 ≤ damage) (h1 : 0 ≤ m.current_health)
    (h2 : m.current_health ≤ (m.stats.max_health : ℚ)) :
    0 ≤ (m.takeDamage damage attack_type st dur now fleeRoll).1.current_health
    ∧ (m.takeDamage damage attack_type st dur now fleeRoll).1.current_health ≤
      ((m.takeDamage damage attack_type st dur now fleeRoll).1.stats.max_health : ℚ) := by
  rw [takeDamage_health, takeDamage_stats]
  constructor
  · exact le_max_left 0 _
  · apply max_le (le_trans h1 h2)
    have hf : (0:ℚ) ≤ (pyInt ((damage : ℚ) * elementMultiplier m.stats attack_type) : ℚ) := by
      have hq := pyInt_nonneg ((damage : ℚ) * elementMultiplier m.stats attack_type)
        (mul_nonneg (by exact_mod_cast h0) (elementMultiplier_nonneg m.stats attack_type))
      exact_mod_cast hq
    linarith

/-- Witness for `c2_health_bounds` at a fresh Great Jaggi taking 5 FIRE
damage. -/
theorem c2_health_bounds_witness :
    0 ≤ (jag0.takeDamage 5 .FIRE none 0 0 1).1.current_health
    ∧ (jag0.takeDamage 5 .FIRE none 0 0 1).1.current_health ≤
      ((jag0.takeDamage 5 .FIRE none 0 0 1).1.stats.max_health : ℚ) :=
  c2_health_bounds jag0 5 .FIRE none 0 0 1 (by norm_num)
    (by norm_num [jag0, mkMonsterAI, greatJaggiTemplate])
    (by norm_num [jag0, mkMonsterAI, greatJaggiTemplate])

/-- Claim C3 counterexample: the enrage transition writes the `attack`
field of the agent's `stats` — the very `MonsterStats` record that
`spawn_monster` passes by reference from the shared catalog (the third
conjunct: the agent's `stats` IS the catalog template) — changing it from
45 to `int(45 * 1.5) = 67`. -/
theorem c3_enrage_template_write_cex :
    (jag0.becomeEnraged 0).stats.attack = 67
    ∧ greatJaggiTemplate.attack = 45
    ∧ jag0.stats = greatJaggiTemplate := by
  refine ⟨?_, rfl, rfl⟩
  simp only [jag0, MonsterAI.becomeEnraged, mkMonsterAI, greatJaggiTemplate, pyInt]
  norm_num

/-- Claim C3 (amended): the only template write any agent operation
performs is the enrage transition's
`stats.attack := int(stats.attack * enrage_multiplier)` (leaving every
other template field unchanged); `take_damage`, `_perform_attack` and
`_update_status_effects` never write any `stats` field.  Since the
template object is shared by reference in the source, an agent's enrage is
visible through the species template to every agent of that species. -/
theorem c3_template_mutation (m : MonsterAI) (damage : ℤ) (attack_type : AttackType)
    (st : Option StatusEffect) (dur now fleeRoll dt : ℚ) (p : Player) :
    ((m.becomeEnraged now).stats =
      { m.stats with attack := pyInt ((m.stats.attack : ℚ) * m.stats.enrage_multiplier) })
    ∧ (m.takeDamage damage attack_type st dur now fleeRoll).1.stats = m.stats
    ∧ (m.performAttack p now).1.stats = m.stats
    ∧ (m.updateStatusEffects now dt).stats = m.stats := by
  refine ⟨rfl, takeDamage_stats m damage attack_type st dur now fleeRoll, ?_, rfl⟩
  simp only [MonsterAI.performAttack]
  split_ifs <;> rfl

/-- Claim C4 counterexample: `take_damage(1, WATER)` against the Great
Jaggi (WATER-resistant, multiplier 0.7) emits `final_damage = int(0.7) = 0`
and leaves health at 800, while the claim's `round(1 * 0.7) = 1`. -/
theorem c4_truncation_cex :
    (jag0.takeDamage 1 .WATER none 0 0 1).2 = .damaged 0 800
    ∧ elementMultiplier greatJaggiTemplate .WATER = 7/10
    ∧ specRound ((1 : ℚ) * (7/10)) = 1
    ∧ (0 : ℤ) ≠ specRound ((1 : ℚ) * (7/10)) := by
  have hr : specRound ((1 : ℚ) * (7/10)) = 1 := by
    rw [specRound, round_eq]; norm_num
  refine ⟨?_, ?_, hr, by rw [hr]; norm_num⟩
  · simp only [jag0, MonsterAI.takeDamage, elementMultiplier, pyInt, mkMonsterAI,
      greatJaggiTemplate, generateAttackPatterns, List.mem_cons, List.mem_singleton,
      List.not_mem_nil, or_false, reduceCtorEq, if_false, if_true]
    norm_num
  · simp [elementMultiplier, greatJaggiTemplate]

/-- Claim C4 (amended): the multiplier is 1.5 for a species weakness, else
0.7 for a resistance, else 1.0 (that part of the claim holds), but
`final_damage = int(amount * multiplier)` — Python truncation toward zero,
not `round` — and the new health is `max(0, health - final_damage)`. -/
theorem c4_take_damage_formula (m : MonsterAI) (damage : ℤ) (attack_type : AttackType)
    (st : Option StatusEffect) (dur now fleeRoll : ℚ) :
    (m.takeDamage damage attack_type st dur now fleeRoll).1.current_health
      = max 0 (m.current_health -
        (pyInt ((damage : ℚ) * elementMultiplier m.stats attack_type) : ℚ))
    ∧ (m.takeDamage damage attack_type st dur now fleeRoll).2.damageOf
      = some (pyInt ((damage : ℚ) * elementMultiplier m.stats attack_type)) := by
  simp only [MonsterAI.takeDamage]
  cases st <;> dsimp only <;> split_ifs <;> simp [Action.damageOf]

/-- Claim C5 counterexample: the enraged Great Jaggi's `Charge`
(damage 25, enrage multiplier 1.5) against a defense-0 player in range
emits `int(25 * 1.5) = 37`, while the claim's
`round(25 * 1.5) - 0 = 38` (floored at 1). -/
theorem c5_attack_round_cex :
    (c5Advanced.performAttack hunter4 10).2 = .attack "Charge" 37 "p4" .PHYSICAL none
    ∧ max 1 (specRound ((25 : ℚ) * greatJaggiTemplate.enrage_multiplier) - hunter4.defense)
      = 38 := by
  constructor
  · rw [c5Advanced_eq]
    simp only [jag0, MonsterAI.performAttack, mkMonsterAI, greatJaggiTemplate, hunter4,
      generateAttackPatterns, Position.distance_to, List.getD, pyInt]
    norm_num [ratSqrt_sixteen]
  · rw [specRound, round_eq]
    norm_num [greatJaggiTemplate, hunter4]

/-- Claim C5 (amended): for every attack that hits (not on cooldown and
target within the selected pattern's range), the emitted damage is
`max(1, (is_enraged ? int(pattern.damage * enrage_multiplier) :
pattern.damage) - target.defense)` — truncation, not `round` — the
pattern's element and inflicted status ride on the emitted `Attack` for
the target, and the attacking agent's own status-effect list is unchanged
(the status is never applied to self). -/
theorem c5_attack_damage (m : MonsterAI) (p : Player) (now : ℚ)
    (h1 : ¬(now - m.last_attack_time < m.attack_cooldown))
    (h2 : m.position.distance_to p.position ≤
      (m.attack_patterns.getD m.current_pattern_index dummyPattern).range) :
    (m.performAttack p now).2 =
      .attack (m.attack_patterns.getD m.current_pattern_index dummyPattern).name
        (max 1 ((if m.is_enraged then
            pyInt (((m.attack_patterns.getD m.current_pattern_index dummyPattern).damage : ℚ)
              * m.stats.enrage_multiplier)
          else (m.attack_patterns.getD m.current_pattern_index dummyPattern).damage)
          - p.defense))
        p.id ((m.attack_patterns.getD m.current_pattern_index dummyPattern).type.getD .PHYSICAL)
        (m.attack_patterns.getD m.current_pattern_index dummyPattern).status
    ∧ (m.performAttack p now).1.status_effects = m.status_effects := by
  rw [performAttack_hit_eq m p now h1 h2]
  exact ⟨rfl, rfl⟩

/-- Witness for `c5_attack_damage`: a fresh (non-enraged) Great Jaggi hits
the adjacent defense-0 player with `Tail Swipe` for 15. -/
theorem c5_attack_damage_witness :
    (jag0.performAttack hunter0 10).2 = .attack "Tail Swipe" 15 "p0" .PHYSICAL none
    ∧ (jag0.performAttack hunter0 10).1.status_effects = jag0.status_effects := by
  have hcd : ¬((10:ℚ) - jag0.last_attack_time < jag0.attack_cooldown) := by
    norm_num [jag0, mkMonsterAI]
  have hdist : jag0.position.distance_to hunter0.position ≤
      (jag0.attack_patterns.getD jag0.current_pattern_index dummyPattern).range := by
    simp only [jag0, mkMonsterAI, greatJaggiTemplate, generateAttackPatterns, hunter0,
      Position.distance_to, List.getD]
    norm_num [ratSqrt_one]
  have h := c5_attack_damage jag0 hunter0 10 hcd hdist
  refine ⟨?_, h.2⟩
  rw [h.1]
  simp only [jag0, mkMonsterAI, greatJaggiTemplate, generateAttackPatterns, hunter0,
    List.getD, pyInt]
  norm_num

/-- Claim C6 counterexample: a stunned (paralyzed, not asleep) agent with a
player at distance 1 does not short-circuit to a `Stunned` action: its
update tick falls through to idle behavior, emits `patrol`, moves the
agent (from the origin to x = 9/10), and leaves the stun flag set. -/
theorem c6_stunned_patrol_cex :
    (c6Paralyzed.update 1 [hunter1] 5 env32).2 = .patrol
    ∧ (c6Paralyzed.update 1 [hunter1] 5 env32).1.position = ⟨9/10, 0, 0⟩
    ∧ (c6Paralyzed.update 1 [hunter1] 5 env32).1.is_stunned = true := by
  rw [c6Paralyzed_eq]
  simp only [jag0, mkMonsterAI, greatJaggiTemplate, generateAttackPatterns,
    MonsterAI.update, MonsterAI.updateStatusEffects, tickEffects, applyActive, clearExpired,
    MonsterAI.ragePhase, MonsterAI.becomeEnraged, MonsterAI.findNearestPlayer,
    MonsterAI.idleBehavior, MonsterAI.performAttack, MonsterAI.chasePlayer,
    Position.distance_to, Position.move_towards, pyInt, hunter1, env32,
    List.foldl_cons, List.foldl_nil, Option.map_some']
  norm_num [ratSqrt_one, ratSqrt_four]

/-- Claim C6 (amended): an agent that is asleep after the status tick
always ends its update in idle behavior, emitting `sleep` and not moving;
an agent that is stunned after the status tick skips the attack and chase
branches but falls through to idle behavior, so its update emits `sleep`,
`patrol` or `idle` (never `Stunned`, which the update path reaches only
through the chase branch's trapped check), and a stunned-but-awake agent
may move while patrolling (see the counterexample). -/
theorem c6_incapacity_gating (m : MonsterAI) (dt : ℚ) (players : List Player)
    (now : ℚ) (env : Env) :
    ((m.updateStatusEffects now dt).is_sleeping = true →
      (m.update dt players now env).2 = .sleep ∧
      (m.update dt players now env).1.position = m.position)
    ∧ ((m.updateStatusEffects now dt).is_stunned = true →
      (m.update dt players now env).2 = .sleep ∨ (m.update dt players now env).2 = .patrol ∨
        (m.update dt players now env).2 = .idle) := by
  constructor
  · intro hs
    have h2 : ((m.updateStatusEffects now dt).ragePhase now).is_sleeping = true := by
      rw [ragePhase_is_sleeping]; exact hs
    simp only [MonsterAI.update]
    cases hfind : ((m.updateStatusEffects now dt).ragePhase now).findNearestPlayer players with
    | none =>
      simp only [hfind]
      rw [idleBehavior_sleeping _ _ _ _ h2]
      refine ⟨rfl, ?_⟩
      show ((m.updateStatusEffects now dt).ragePhase now).position = m.position
      rw [ragePhase_position, updateStatusEffects_position]
    | some p =>
      simp only [hfind]
      have h3 : ({ ((m.updateStatusEffects now dt).ragePhase now) with
          target_player := some p.id } : MonsterAI).is_sleeping = true := h2
      rw [if_neg (attackGuard_neg_of_sleeping _ _ _ h3),
        if_neg (attackGuard_neg_of_sleeping _ _ _ h3),
        idleBehavior_sleeping _ _ _ _ h3]
      refine ⟨rfl, ?_⟩
      show ((m.updateStatusEffects now dt).ragePhase now).position = m.position
      rw [ragePhase_position, updateStatusEffects_position]
  · intro hs
    have h2 : ((m.updateStatusEffects now dt).ragePhase now).is_stunned = true := by
      rw [ragePhase_is_stunned]; exact hs
    simp only [MonsterAI.update]
    cases hfind : ((m.updateStatusEffects now dt).ragePhase now).findNearestPlayer players with
    | none =>
      simp only [hfind]
      exact idleBehavior_cases _ _ _ _
    | some p =>
      simp only [hfind]
      have h3 : ({ ((m.updateStatusEffects now dt).ragePhase now) with
          target_player := some p.id } : MonsterAI).is_stunned = true := h2
      rw [if_neg (attackGuard_neg_of_stunned _ _ _ h3),
        if_neg (attackGuard_neg_of_stunned _ _ _ h3)]
      exact idleBehavior_cases _ _ _ _

/-- Witness for `c6_incapacity_gating`: the sleeping Great Jaggi's update
emits `sleep` and does not move. -/
theorem c6_incapacity_gating_witness :
    (c6Sleeper.update 1 [] 7 env6).2 = .sleep
    ∧ (c6Sleeper.update 1 [] 7 env6).1.position = c6Sleeper.position :=
  (c6_incapacity_gating c6Sleeper 1 [] 7 env6).1 rfl

/-- Claim C7 counterexample: with two stacked paralysis instances —
one applied at time 0 with duration 10 (still active at time 5), one
applied at time 1 with duration 2 (expired at time 5) — the tick at time 5
clears `is_stunned` even though the first instance survives as an active
paralysis (third conjunct: it is indeed still active). -/
theorem c7_stacked_flag_cex :
    (c7Stacked.updateStatusEffects 5 1).is_stunned = false
    ∧ (c7Stacked.updateStatusEffects 5 1).status_effects = [⟨.PARALYSIS, 10, 1, 0⟩]
    ∧ ((5 : ℚ) - 0 < 10) := by
  rw [c7Stacked_eq]
  refine ⟨?_, ?_, by norm_num⟩ <;>
  · simp only [jag0, mkMonsterAI, greatJaggiTemplate, generateAttackPatterns,
      MonsterAI.updateStatusEffects, tickEffects, applyActive, clearExpired]
    norm_num

/-- Claim C7 (amended): after a status tick, each of the four flags equals
the active/expired status of the LAST instance of its kind in the effect
list (unchanged when no instance of that kind exists), and exactly the
still-active instances survive.  So the flag is not "true iff some active
instance exists": an expired instance listed after an active one of the
same kind clears the flag while the active instance survives (see the
counterexample). -/
theorem c7_flag_last_instance (m : MonsterAI) (now dt : ℚ) :
    (m.updateStatusEffects now dt).is_stunned =
      (lastOfKind .PARALYSIS m.status_effects).elim m.is_stunned
        (fun e => decide (now - e.start_time < e.duration))
    ∧ (m.updateStatusEffects now dt).is_sleeping =
      (lastOfKind .SLEEP m.status_effects).elim m.is_sleeping
        (fun e => decide (now - e.start_time < e.duration))
    ∧ (m.updateStatusEffects now dt).is_trapped =
      (lastOfKind .TRAP m.status_effects).elim m.is_trapped
        (fun e => decide (now - e.start_time < e.duration))
    ∧ (m.updateStatusEffects now dt).is_mounted =
      (lastOfKind .MOUNT m.status_effects).elim m.is_mounted
        (fun e => decide (now - e.start_time < e.duration))
    ∧ (m.updateStatusEffects now dt).status_effects =
      m.status_effects.filter (fun e => decide (now - e.start_time < e.duration)) := by
  refine ⟨?_, ?_, ?_, ?_, ?_⟩
  · exact tickEffects_flag now dt .PARALYSIS EffState.is_stunned
      (fun e st => by rcases e with ⟨eff, d, i, s⟩; cases eff <;> simp [applyActive])
      (fun e st => by rcases e with ⟨eff, d, i, s⟩; cases eff <;> simp [clearExpired])
      m.status_effects _
  · exact tickEffects_flag now dt .SLEEP EffState.is_sleeping
      (fun e st => by rcases e with ⟨eff, d, i, s⟩; cases eff <;> simp [applyActive])
      (fun e st => by rcases e with ⟨eff, d, i, s⟩; cases eff <;> simp [clearExpired])
      m.status_effects _
  · exact tickEffects_flag now dt .TRAP EffState.is_trapped
      (fun e st => by rcases e with ⟨eff, d, i, s⟩; cases eff <;> simp [applyActive])
      (fun e st => by rcases e with ⟨eff, d, i, s⟩; cases eff <;> simp [clearExpired])
      m.status_effects _
  · exact tickEffects_flag now dt .MOUNT EffState.is_mounted
      (fun e st => by rcases e with ⟨eff, d, i, s⟩; cases eff <;> simp [applyActive])
      (fun e st => by rcases e with ⟨eff, d, i, s⟩; cases eff <;> simp [clearExpired])
      m.status_effects _
  · exact tickEffects_survivors now dt m.status_effects _

/-- Claim C8 (confirmed): `_perform_attack` returns `Cooldown` exactly when
`now - last_attack_time < attack_cooldown` (the agent-wide timer is the
sole gate); every non-cooldown attempt advances the round-robin index by
exactly one slot modulo the list length whether it hits or misses; and
rewriting every pattern's per-pattern `cooldown` field arbitrarily changes
neither the emitted action nor (up to the same rewriting) the resulting
state — the per-pattern field cannot affect behaviour. -/
theorem c8_cooldown_gating (m : MonsterAI) (p : Player) (now : ℚ) (g : AttackPattern → ℚ) :
    ((m.performAttack p now).2 = .cooldown ↔ now - m.last_attack_time < m.attack_cooldown)
    ∧ (m.performAttack p now).1.current_pattern_index =
        (if now - m.last_attack_time < m.attack_cooldown then m.current_pattern_index
         else (m.current_pattern_index + 1) % m.attack_patterns.length)
    ∧ ((mapPatternCooldowns g m).performAttack p now).2 = (m.performAttack p now).2
    ∧ ((mapPatternCooldowns g m).performAttack p now).1 =
        mapPatternCooldowns g (m.performAttack p now).1 := by
  have hrange : ((mapPatternCooldowns g m).attack_patterns.getD
      (mapPatternCooldowns g m).current_pattern_index dummyPattern).range =
      (m.attack_patterns.getD m.current_pattern_index dummyPattern).range := by
    show ((m.attack_patterns.map (fun pat => { pat with cooldown := g pat })).getD
      m.current_pattern_index dummyPattern).range = _
    rw [getD_map_cooldown]
  by_cases hcd : now - m.last_attack_time < m.attack_cooldown
  · rw [performAttack_cooldown_eq m p now hcd,
      performAttack_cooldown_eq (mapPatternCooldowns g m) p now hcd]
    refine ⟨by simp [hcd], by simp [hcd], rfl, rfl⟩
  · by_cases hhit : m.position.distance_to p.position ≤
        (m.attack_patterns.getD m.current_pattern_index dummyPattern).range
    · have hhit' : (mapPatternCooldowns g m).position.distance_to p.position ≤
          ((mapPatternCooldowns g m).attack_patterns.getD
            (mapPatternCooldowns g m).current_pattern_index dummyPattern).range := by
        rw [hrange]; exact hhit
      rw [performAttack_hit_eq m p now hcd hhit,
        performAttack_hit_eq (mapPatternCooldowns g m) p now hcd hhit']
      refine ⟨by simp [hcd], by simp [hcd], ?_, ?_⟩
      · show Action.attack _ _ _ _ _ = Action.attack _ _ _ _ _
        rw [show (mapPatternCooldowns g m).attack_patterns.getD
            (mapPatternCooldowns g m).current_pattern_index dummyPattern =
            { m.attack_patterns.getD m.current_pattern_index dummyPattern with
              cooldown := if m.current_pattern_index < m.attack_patterns.length then
                g (m.attack_patterns.getD m.current_pattern_index dummyPattern) else 0 }
          from getD_map_cooldown g m.attack_patterns m.current_pattern_index]
        rfl
      · show ({ mapPatternCooldowns g m with
            current_pattern_index := _, last_attack_time := now } : MonsterAI) = _
        simp only [mapPatternCooldowns, List.length_map]
    · have hhit' : ¬((mapPatternCooldowns g m).position.distance_to p.position ≤
          ((mapPatternCooldowns g m).attack_patterns.getD
            (mapPatternCooldowns g m).current_pattern_index dummyPattern).range) := by
        rw [hrange]; exact hhit
      rw [performAttack_miss_eq m p now hcd hhit,
        performAttack_miss_eq (mapPatternCooldowns g m) p now hcd hhit']
      refine ⟨by simp [hcd], by simp [hcd], rfl, ?_⟩
      show ({ mapPatternCooldowns g m with current_pattern_index := _ } : MonsterAI) = _
      simp only [mapPatternCooldowns, List.length_map]

/-- Claim C9 (confirmed): `spawn_monster` is a no-op returning `None` at or
above the cap and for an unknown species id; a spawn from below-or-at the
cap keeps the population at or below the cap; and a full `update_monsters`
sweep (removals, then the cadence spawn that is guarded by
`population < cap`) preserves `population ≤ cap`. -/
theorem c9_population_cap (s : Spawner) (mtype : String) (pos : Position)
    (dt now : ℚ) (players : List Player) (env : Env) (pointIdx typeIdx : ℕ)
    (rid : ℤ) (a b c : ℚ) :
    (s.max_monsters ≤ s.active_monsters.length →
      s.spawnMonster mtype pos now rid a b c = (s, none))
    ∧ (s.monster_templates.lookup mtype = none →
      s.spawnMonster mtype pos now rid a b c = (s, none))
    ∧ (s.active_monsters.length ≤ s.max_monsters →
      (s.spawnMonster mtype pos now rid a b c).1.active_monsters.length ≤ s.max_monsters)
    ∧ (s.active_monsters.length ≤ s.max_monsters →
      (s.updateMonsters dt players now env pointIdx typeIdx rid a b c).1.active_monsters.length
        ≤ s.max_monsters) := by
  refine ⟨?_, ?_, ?_, ?_⟩
  · intro h
    unfold Spawner.spawnMonster
    rw [if_pos h]
  · intro h
    unfold Spawner.spawnMonster
    split_ifs
    · rfl
    · rw [h]
  · exact spawnMonster_cap s mtype pos now rid a b c
  · intro h
    simp only [Spawner.updateMonsters]
    split_ifs with hcond
    · exact spawnRandomMonster_cap _ pointIdx typeIdx now rid a b c (le_of_lt hcond.2)
    · show (List.map (fun x => (x.1, x.2.1)) (List.filter (fun x => !x.2.2.isDefeated)
          (List.map (fun kv => (kv.1, kv.2.update dt players now env)) s.active_monsters))).length
          ≤ s.max_monsters
      rw [List.length_map]
      refine le_trans (List.length_filter_le _ _) ?_
      rw [List.length_map]
      exact h

/-- Witness for `c9_population_cap`: a spawner with cap 0 declines a spawn,
an unknown species id is declined, and a sweep of the fresh spawner keeps
the population at or below 10. -/
theorem c9_population_cap_witness :
    ({ mkSpawner with max_monsters := 0 } : Spawner).spawnMonster "great_jaggi" ⟨0, 0, 0⟩ 0 7 1 1 1
      = ({ mkSpawner with max_monsters := 0 }, none)
    ∧ mkSpawner.spawnMonster "mystery" ⟨0, 0, 0⟩ 0 7 1 1 1 = (mkSpawner, none)
    ∧ (mkSpawner.updateMonsters 1 [] 0 env6 0 0 7 1 1 1).1.active_monsters.length ≤ 10 := by
  refine ⟨?_, ?_, ?_⟩
  · exact (c9_population_cap { mkSpawner with max_monsters := 0 } "great_jaggi" ⟨0, 0, 0⟩
      1 0 [] env6 0 0 7 1 1 1).1 (Nat.zero_le _)
  · exact (c9_population_cap mkSpawner "mystery" ⟨0, 0, 0⟩ 1 0 [] env6 0 0 7 1 1 1).2.1
      (by simp [mkSpawner, createMonsterTemplates, List.lookup])
  · exact (c9_population_cap mkSpawner "great_jaggi" ⟨0, 0, 0⟩ 1 0 [] env6 0 0 7 1 1 1).2.2.2
      (Nat.zero_le _)

/-- Claim C10 (confirmed): every species' generated pattern list is
non-empty (the fallback single-pattern list covers species without a
table), a freshly constructed agent satisfies the pattern-selection safety
invariant (non-empty list, in-range index), and `_perform_attack`
preserves it — so indexing `attack_patterns[current_pattern_index]` and
the `% len` advance are total on every reachable agent. -/
theorem c10_patterns_total :
    (∀ t : MonsterType, 0 < (generateAttackPatterns t).length)
    ∧ (∀ (stats : MonsterStats) (pos : Position) (now a b c : ℚ),
        patternsOk (mkMonsterAI stats pos now a b c))
    ∧ (∀ (m : MonsterAI) (p : Player) (now : ℚ),
        patternsOk m → patternsOk (m.performAttack p now).1) := by
  refine ⟨generateAttackPatterns_ne_nil, ?_, ?_⟩
  · intro stats pos now a b c
    exact ⟨generateAttackPatterns_ne_nil _, generateAttackPatterns_ne_nil _⟩
  · intro m p now h
    by_cases hcd : now - m.last_attack_time < m.attack_cooldown
    · rw [performAttack_cooldown_eq m p now hcd]
      exact h
    · by_cases hhit : m.position.distance_to p.position ≤
          (m.attack_patterns.getD m.current_pattern_index dummyPattern).range
      · rw [performAttack_hit_eq m p now hcd hhit]
        exact ⟨h.1, Nat.mod_lt _ h.1⟩
      · rw [performAttack_miss_eq m p now hcd hhit]
        exact ⟨h.1, Nat.mod_lt _ h.1⟩

/-- Witness for `c10_patterns_total`: the fresh Great Jaggi satisfies the
invariant and still satisfies it after an attack attempt. -/
theorem c10_patterns_total_witness :
    patternsOk jag0 ∧ patternsOk (jag0.performAttack hunter0 10).1 :=
  ⟨c10_patterns_total.2.1 greatJaggiTemplate ⟨0, 0, 0⟩ 0 1 1 1,
   c10_patterns_total.2.2 jag0 hunter0 10
     (c10_patterns_total.2.1 greatJaggiTemplate ⟨0, 0, 0⟩ 0 1 1 1)⟩

end MHF


